import Mathlib

/-!
Shallow embedding of the howdy authentication core
(`compare_optimized.py`, `model_daemon.py`, `optimized_video_processor.py`,
`frequency_analyzer.py`), used to settle the specification claims.
Times, pixel statistics and descriptor coordinates are modelled as exact
rationals; the spectral score of the frequency analyzer, which goes through
`exp`, lives in the reals.
-/

namespace Howdy

/-! ### SecurityLogger (`compare_optimized.py`, lines 253-327)

`failed_attempts` maps a username to `{'count': _, 'last_attempt': _}`;
the constructor starts it empty and never reads the on-disk log. -/

/-- In-memory lockout state: username to (count, last_attempt). -/
def LockState : Type := String → Option (Nat × ℚ)

/-- Constructor `SecurityLogger.__init__`: `self.failed_attempts = {}`. -/
def freshLogger : LockState := fun _ => none

/-- Method `SecurityLogger._update_failed_attempts` (lines 296-308): insert
`{'count': 0, 'last_attempt': t}` when absent, then reset to count 1 when the
gap since the last attempt exceeds `lockout_duration = 300`, else increment. -/
def updateFailedAttempts (s : LockState) (u : String) (t : ℚ) : LockState :=
  let cur := (s u).getD (0, t)
  let upd : Nat × ℚ := if t - cur.2 > 300 then (1, t) else (cur.1 + 1, t)
  fun v => if v = u then some upd else s v

/-- Method `SecurityLogger.log_auth_attempt` (lines 266-294), restricted to its effect
on `failed_attempts`: only a failure touches the counters. -/
def logAuthAttempt (s : LockState) (u : String) (success : Bool) (t : ℚ) :
    LockState :=
  if success then s else updateFailedAttempts s u t

/-- Method `SecurityLogger.is_user_locked` (lines 310-327): locked when
`count >= max_attempts = 5` and less than `lockout_duration = 300` elapsed
since the last failure; an expired lockout deletes the record. Returns the
verdict together with the (possibly mutated) state. -/
def isUserLocked (s : LockState) (u : String) (t : ℚ) : Bool × LockState :=
  match s u with
  | none => (false, s)
  | some ud =>
    if ud.1 ≥ 5 then
      if t - ud.2 < 300 then (true, s)
      else (false, fun v => if v = u then none else s v)
    else (false, s)

/-! ### Model daemon enrollment cache (`model_daemon.py`, lines 106-165, 279-283)

The on-disk enrollment file is a JSON list of entries `{label, time, data}`;
`load_user_encodings` concatenates all `data` arrays into the encodings
matrix, caches it together with the raw entry list (`models`) and the file
mtime, and `check_cache_validity` invalidates only when the current mtime is
strictly greater than the cached one. -/

/-- One entry of the on-disk enrollment file. -/
structure ModelEntry where
  label : String
  time : ℚ
  data : List (List ℚ)

/-- On-disk enrollment file for one user: its mtime and its entries. -/
structure UserFile where
  mtime : ℚ
  models : List ModelEntry

/-- Cached value of `encodings_cache[username]`:
`{'encodings': ..., 'models': ..., 'last_modified': ...}`. -/
structure CacheEntry where
  encodings : List (List ℚ)
  models : List ModelEntry
  last_modified : ℚ

/-- The filesystem, as a partial map from username to enrollment file. -/
def FS : Type := String → Option UserFile

/-- The daemon's `encodings_cache`, as a partial map. -/
def Cache : Type := String → Option CacheEntry

/-- Insert a cache entry for a user. -/
def insertUser (c : Cache) (u : String) (e : CacheEntry) : Cache :=
  fun v => if v = u then some e else c v

/-- Method `invalidate_user_cache` (lines 142-147): drop the user's entry. -/
def eraseUser (c : Cache) (u : String) : Cache :=
  fun v => if v = u then none else c v

/-- The cache entry built from an on-disk file: `encodings` is the
concatenation of all `data` arrays (`encodings.extend(model["data"])`),
`models` the raw entry list, `last_modified` the file mtime. -/
def entryOfFile (f : UserFile) : CacheEntry :=
  { encodings := (f.models.map (fun m => m.data)).flatten
    models := f.models
    last_modified := f.mtime }

/-- Method `load_user_encodings` (lines 106-140): return the cached entry when
present (cache hit, no disk access); otherwise return `None` when the file is
missing, and otherwise read the file and cache the freshly built entry. -/
def loadUserEncodings (c : Cache) (fs : FS) (u : String) :
    Cache × Option CacheEntry :=
  match c u with
  | some e => (c, some e)
  | none =>
    match fs u with
    | none => (c, none)
    | some f => (insertUser c u (entryOfFile f), some (entryOfFile f))

/-- Method `check_cache_validity` (lines 149-165): false when the user is not
cached; false (without invalidation) when reading the mtime fails because the
file is gone; invalidate and return false when the current mtime is strictly
greater than the cached one; true otherwise. -/
def checkCacheValidity (c : Cache) (fs : FS) (u : String) : Bool × Cache :=
  match c u with
  | none => (false, c)
  | some e =>
    match fs u with
    | none => (false, c)
    | some f =>
      if f.mtime > e.last_modified then (false, eraseUser c u) else (true, c)

/-- The `get_encodings` branch of `process_request` (lines 279-283):
`if not check_cache_validity(u): load_user_encodings(u)`, then respond with
`encodings_cache.get(u)`. -/
def processGetEncodings (c : Cache) (fs : FS) (u : String) :
    Option CacheEntry × Cache :=
  let vc := checkCacheValidity c fs u
  let c2 := if vc.1 then vc.2 else (loadUserEncodings vc.2 fs u).1
  (c2 u, c2)

/-! ### AdaptiveFrameProcessor (`optimized_video_processor.py`, lines 51-111)

`current_skip_rate` starts at 1, `current_resolution_scale` at 1.0, and
`processing_times` is a deque of maxlen 30. `adapt_parameters` appends the
new time, does nothing while fewer than 5 samples exist, and otherwise
compares the mean of the last 10 samples against 0.1 / 0.03. -/

/-- Mutable state of `AdaptiveFrameProcessor`: skip rate, resolution scale,
and the processing-time history (most recent last). -/
structure AdaptState where
  skip : Nat
  scale : ℚ
  times : List ℚ

/-- Append a sample to `self.processing_times`, a deque of maxlen 30. -/
def pushTime (l : List ℚ) (t : ℚ) : List ℚ :=
  let l2 := l ++ [t]
  if l2.length > 30 then l2.tail else l2

/-- Mean of the last ten samples, `np.mean(list(self.processing_times)[-10:])`. -/
def avgLastTen (l : List ℚ) : ℚ :=
  let m := l.drop (l.length - 10)
  m.sum / m.length

/-- Method `AdaptiveFrameProcessor.adapt_parameters` (lines 80-111): on a slow mean
(> 0.1 s) raise the skip rate while it is below 4, else scale resolution by
0.8 while it is above 0.5; on a fast mean (< 0.03 s) lower the skip rate
while above 1, else scale resolution by 1.1 capped at 1.0. -/
def adaptParameters (s : AdaptState) (pt : ℚ) : AdaptState :=
  let ts := pushTime s.times pt
  if ts.length < 5 then { s with times := ts }
  else
    let avg := avgLastTen ts
    if avg > 1/10 then
      if s.skip < 4 then { skip := s.skip + 1, scale := s.scale, times := ts }
      else if s.scale > 1/2 then
        { skip := s.skip, scale := s.scale * (4/5), times := ts }
      else { s with times := ts }
    else if avg < 3/100 then
      if s.skip > 1 then
        { skip := max 1 (s.skip - 1), scale := s.scale, times := ts }
      else if s.scale < 1 then
        { skip := s.skip, scale := min 1 (s.scale * (11/10)), times := ts }
      else { s with times := ts }
    else { s with times := ts }

/-- Constructor `AdaptiveFrameProcessor.__init__`: skip rate 1, scale 1.0, empty history. -/
def initAdapt : AdaptState := ⟨1, 1, []⟩

/-- Any sequence of `adapt_parameters` calls, as a fold. -/
def runAdapt (s : AdaptState) (pts : List ℚ) : AdaptState :=
  pts.foldl adaptParameters s

/-! ### SmartFrameAnalyzer quality gate (`optimized_video_processor.py`,
lines 277-363, 459-464)

`analyze_frame_quality` computes four image statistics (Laplacian variance,
mean luma, luma standard deviation, variance of the four quadrant mean-luma
values); the gate itself is a function of the four resulting indicator
booleans. The statistics are taken as inputs here; the thresholds and the
weighted score are embedded exactly. -/

/-- Indicator `is_sharp`: Laplacian variance strictly above `blur_threshold = 100`. -/
def isSharp (blur : ℚ) : Bool := blur > 100

/-- Indicator `is_bright_enough`: mean luma within `brightness_range = (50, 200)`,
bounds included. -/
def isBrightEnough (brightness : ℚ) : Bool := 50 ≤ brightness ∧ brightness ≤ 200

/-- Indicator `has_good_contrast`: luma standard deviation strictly above
`contrast_threshold = 30`. -/
def hasGoodContrast (contrast : ℚ) : Bool := contrast > 30

/-- Indicator `has_even_lighting`: variance of the four quadrant means strictly below
500. -/
def hasEvenLighting (lightingVariance : ℚ) : Bool := lightingVariance < 500

/-- The weighted quality score `0.3*sharp + 0.25*bright + 0.25*contrast +
0.2*uniform`, each term 0/1 (lines 337-342). -/
def qualityScore (sharp bright contrast even : Bool) : ℚ :=
  (if sharp then 3/10 else 0) + (if bright then 1/4 else 0)
    + (if contrast then 1/4 else 0) + (if even then 1/5 else 0)

/-- Gate `is_good_quality`: `quality_score > 0.7` (line 354). -/
def isGoodQuality (sharp bright contrast even : Bool) : Bool :=
  qualityScore sharp bright contrast even > 7/10

/-- The whole gate on the four statistics: a frame passes
(`read_optimized_frame` keeps it, lines 459-464) iff `is_good_quality`. -/
def framePasses (blur brightness contrast lightingVariance : ℚ) : Bool :=
  isGoodQuality (isSharp blur) (isBrightEnough brightness)
    (hasGoodContrast contrast) (hasEvenLighting lightingVariance)

/-- At least two of three booleans are set. -/
def atLeastTwo (a b c : Bool) : Bool := (a && b) || (a && c) || (b && c)

/-! ### FrequencyAnalyzer (`frequency_analyzer.py`, lines 23-108)

`analyze` crops the face region (clipping the rectangle to the image and
returning 0.0 when the clipped width or height is non-positive), computes the
FFT magnitude spectrum masked outside a low-frequency disk, and maps the
peak/mean energy ratio through a logistic centered at 3.5 with slope 2.0,
clamped to [0, 1]; any exception yields 0.0. The spectral statistics
`mean_energy` and `max_energy` are taken as real inputs; the crop clipping
arithmetic and the score computation are embedded exactly. -/

/-- The logistic `1.0 / (1.0 + np.exp(-t))` (line 101, with
`t = (ratio - base_ratio) * scale_factor`). -/
noncomputable def logistic (t : ℝ) : ℝ := 1 / (1 + Real.exp (-t))

/-- Lines 88-104: `0.0` when `mean_energy == 0`, else the logistic of
`(max_energy / (mean_energy + 1e-5) - 3.5) * 2.0`, clamped by
`min(1.0, max(0.0, score))`. -/
noncomputable def spectrumScore (meanEnergy maxEnergy : ℝ) : ℝ :=
  if meanEnergy = 0 then 0
  else min 1 (max 0 (logistic ((maxEnergy / (meanEnergy + 1/100000) - 7/2) * 2)))

/-- Method `FrequencyAnalyzer.analyze` (lines 23-108): `err` models any internal
exception (caught, returning 0.0); a provided face location `(x, y, w, h)` is
clipped to the image as `x' = max(0, x)`, `w' = min(w, w_img - x')` (same for
y/h), and a non-positive clipped width or height returns 0.0. -/
noncomputable def analyze (err : Bool)
    (faceLoc : Option (Int × Int × Int × Int)) (wImg hImg : Int)
    (meanEnergy maxEnergy : ℝ) : ℝ :=
  if err then 0
  else
    match faceLoc with
    | none => spectrumScore meanEnergy maxEnergy
    | some (x, y, w, h) =>
      if min w (wImg - max 0 x) ≤ 0 ∨ min h (hImg - max 0 y) ≤ 0 then 0
      else spectrumScore meanEnergy maxEnergy

/-! ### Verifier match decision and main loop (`compare_optimized.py`,
lines 188-218, 391-641)

`_process_single_frame` computes `np.linalg.norm(encodings - probe, axis=1)`
and takes the argmin; since the square root is monotone, the selected
certainty is the square root of the minimal squared distance, which is what
`nearestSqDist` computes over exact rationals. The main loop accepts iff
`0 < match_certainty < video_certainty` (line 583) and then runs the liveness
gate (lines 584-600) before exiting 0 (line 641). -/

/-- Squared Euclidean distance between two descriptors. -/
def sqDist (a b : List ℚ) : ℚ :=
  (List.zipWith (fun x y => (x - y) ^ 2) a b).sum

/-- The squared distances from the probe to each enrolled descriptor
(`matches` before the square root, line 203). -/
def rowSqDists (enc : List (List ℚ)) (probe : List ℚ) : List ℚ :=
  enc.map (fun e => sqDist e probe)

/-- The squared nearest distance (`matches[argmin]` squared, lines 204-205);
0 by convention on an empty enrollment (where the code would raise). -/
def nearestSqDist (enc : List (List ℚ)) (probe : List ℚ) : ℚ :=
  match rowSqDists enc probe with
  | [] => 0
  | x :: xs => xs.foldl min x

/-- Line 583: the accepting test `0 < match_certainty < video_certainty`
applied to the real-valued distance. -/
def mainAcceptProp (d thr : ℝ) : Prop := 0 < d ∧ d < thr

/-- Per-iteration data for one processed result in the main loop: the match
certainty (nearest distance), whether the `get_face_landmarks` request
returned a truthy value, and the `is_live_face` verdict for this frame. -/
structure StepInput where
  cert : ℚ
  landmarks : Bool
  isLive : Bool
  deriving DecidableEq

/-- Effect of one result on the main loop: whether it exits 0 now, and the
value of `liveness_confirmed` afterwards. -/
structure StepResult where
  accepted : Bool
  confirmed : Bool
  deriving DecidableEq

/-- Lines 576-641, one `result` from `frame_processor.get_result()`: accept
iff `0 < cert < thr`, gated - only when `liveness_check` is enabled, the
landmarks request succeeded, and liveness is not yet confirmed - by the
`is_live_face` verdict; a not-live verdict `continue`s the loop. -/
def processResult (livenessCheck : Bool) (thr : ℚ) (i : StepInput)
    (confirmed : Bool) : StepResult :=
  if 0 < i.cert ∧ i.cert < thr then
    if livenessCheck then
      if i.landmarks = true ∧ confirmed = false then
        if i.isLive then ⟨true, true⟩ else ⟨false, confirmed⟩
      else ⟨true, confirmed⟩
    else ⟨true, confirmed⟩
  else ⟨false, confirmed⟩

/-- One captured frame as the main loop classifies it: `black` (empty or
all-black histogram, lines 548-556, not counted valid), `dark` (darkness
above the threshold, counted valid and dark, line 561), or `lit` carrying
the result, if any, that `get_result` returns on that iteration. -/
inductive FrameKind where
  | black : FrameKind
  | dark : FrameKind
  | lit : Option StepInput → FrameKind
  deriving DecidableEq

/-- The main `while` loop (lines 506-641) over the frames seen before the
deadline, tracking `liveness_confirmed` and the `valid_frames` /
`dark_tries` counters: returns the process exit code (0 on accept; on
deadline 13 when `dark_tries == valid_frames`, else 11). -/
def loopRun (lc : Bool) (thr : ℚ) :
    List FrameKind → Bool → Nat → Nat → Nat
  | [], _, v, d => if d = v then 13 else 11
  | .black :: rest, c, v, d => loopRun lc thr rest c v d
  | .dark :: rest, c, v, d => loopRun lc thr rest c (v + 1) (d + 1)
  | .lit none :: rest, c, v, d => loopRun lc thr rest c (v + 1) d
  | .lit (some i) :: rest, c, v, d =>
    if (processResult lc thr i c).accepted then 0
    else loopRun lc thr rest (processResult lc thr i c).confirmed (v + 1) d

/-- Whether some result in the frame sequence is accepted, starting from the
given `liveness_confirmed` flag. -/
def acceptsRun (lc : Bool) (thr : ℚ) : List FrameKind → Bool → Bool
  | [], _ => false
  | .black :: rest, c => acceptsRun lc thr rest c
  | .dark :: rest, c => acceptsRun lc thr rest c
  | .lit none :: rest, c => acceptsRun lc thr rest c
  | .lit (some i) :: rest, c =>
    (processResult lc thr i c).accepted
      || acceptsRun lc thr rest (processResult lc thr i c).confirmed

/-- The `(valid_frames, dark_tries)` counters after a frame sequence. -/
def countValidDark : List FrameKind → Nat × Nat → Nat × Nat
  | [], vd => vd
  | .black :: rest, vd => countValidDark rest vd
  | .dark :: rest, (v, d) => countValidDark rest (v + 1, d + 1)
  | .lit _ :: rest, (v, d) => countValidDark rest (v + 1, d)

/-- Function `main` (lines 391-641) down to its terminal exit code: the pre-loop
checks in source order (missing username 12, daemon down 1, user locked 15,
no enrollment 10, camera failure 14), then the capture loop. -/
def mainExit (hasUsername daemonRunning locked hasEnrollment cameraOk
    lc : Bool) (thr : ℚ) (frames : List FrameKind) : Nat :=
  if hasUsername = false then 12
  else if daemonRunning = false then 1
  else if locked = true then 15
  else if hasEnrollment = false then 10
  else if cameraOk = false then 14
  else loopRun lc thr frames false 0 0

end Howdy

namespace Howdy

theorem logFail_first (s : LockState) (u : String) (t : ℚ) (h : s u = none) :
    (logAuthAttempt s u false t) u = some (1, t) := by
  simp [logAuthAttempt, updateFailedAttempts, h]

theorem logFail_step (s : LockState) (u : String) (k : Nat) (tp tn : ℚ)
    (h : s u = some (k, tp)) (hg : tn - tp ≤ 300) :
    (logAuthAttempt s u false tn) u = some (k + 1, tn) := by
  simp [logAuthAttempt, updateFailedAttempts, h, not_lt.mpr hg]

/-- C2 (amended): after 5 consecutive failures, each within 300 s of the
previous one, starting from a state with no record for the user, the user is
locked exactly while less than 300 s have elapsed since the 5th failure; but a
successful authentication leaves the failure counters entirely unchanged
(`log_auth_attempt` touches `failed_attempts` only when `success` is false). -/
theorem c2_lockout_window_success_noop (s0 : LockState) (u : String)
    (t1 t2 t3 t4 t5 t : ℚ) (h0 : s0 u = none)
    (g1 : t2 - t1 ≤ 300) (g2 : t3 - t2 ≤ 300)
    (g3 : t4 - t3 ≤ 300) (g4 : t5 - t4 ≤ 300) :
    (((isUserLocked
        (logAuthAttempt (logAuthAttempt (logAuthAttempt (logAuthAttempt
          (logAuthAttempt s0 u false t1) u false t2) u false t3) u false t4)
          u false t5) u t).1 = true) ↔ t - t5 < 300)
    ∧ ∀ (s : LockState) (v : String) (ts : ℚ), logAuthAttempt s v true ts = s := by
  have h1 := logFail_first s0 u t1 h0
  have h2 := logFail_step _ u 1 t1 t2 h1 g1
  have h3 := logFail_step _ u 2 t2 t3 h2 g2
  have h4 := logFail_step _ u 3 t3 t4 h3 g3
  have h5 := logFail_step _ u 4 t4 t5 h4 g4
  constructor
  · simp only [isUserLocked, h5]
    norm_num
    split_ifs with hlt <;> simp [hlt]
  · intro s v ts
    simp [logAuthAttempt]

/-- C2 witness: concrete failures of user carol at times 0, 100, 200, 300, 400
(gaps 100 ≤ 300); at time 450 the lock verdict matches 450 - 400 < 300. -/
theorem c2_lockout_window_success_noop_witness :
    (freshLogger "carol" = none) ∧
    ((((isUserLocked
        (logAuthAttempt (logAuthAttempt (logAuthAttempt (logAuthAttempt
          (logAuthAttempt freshLogger "carol" false 0) "carol" false 100)
          "carol" false 200) "carol" false 300)
          "carol" false 400) "carol" 450).1 = true) ↔ (450 : ℚ) - 400 < 300)
    ∧ ∀ (s : LockState) (v : String) (ts : ℚ), logAuthAttempt s v true ts = s) :=
  ⟨rfl, c2_lockout_window_success_noop freshLogger "carol" 0 100 200 300 400 450
    rfl (by norm_num) (by norm_num) (by norm_num) (by norm_num)⟩

/-- C2 counterexample: the claim says a recorded success clears the
consecutive-failure counter. In the code it does not: after 4 failures of
carol (times 0, 100, 200, 300) and a recorded success at time 400, the state
still holds count 4, and one further failure at time 500 locks the user -
which could not happen had the success cleared the counter. -/
theorem c2_success_does_not_clear_counterexample :
    (logAuthAttempt
      (logAuthAttempt (logAuthAttempt (logAuthAttempt
        (logAuthAttempt freshLogger "carol" false 0) "carol" false 100)
        "carol" false 200) "carol" false 300) "carol" true 400) "carol"
      = some (4, 300)
    ∧ (isUserLocked
        (logAuthAttempt (logAuthAttempt
          (logAuthAttempt (logAuthAttempt (logAuthAttempt
            (logAuthAttempt freshLogger "carol" false 0) "carol" false 100)
            "carol" false 200) "carol" false 300) "carol" true 400)
          "carol" false 500) "carol" 500).1 = true := by
  have h1 := logFail_first freshLogger "carol" 0 rfl
  have h2 := logFail_step _ "carol" 1 0 100 h1 (by norm_num)
  have h3 := logFail_step _ "carol" 2 100 200 h2 (by norm_num)
  have h4 := logFail_step _ "carol" 3 200 300 h3 (by norm_num)
  have hs : logAuthAttempt
      (logAuthAttempt (logAuthAttempt (logAuthAttempt
        (logAuthAttempt freshLogger "carol" false 0) "carol" false 100)
        "carol" false 200) "carol" false 300) "carol" true 400
      = logAuthAttempt (logAuthAttempt (logAuthAttempt
        (logAuthAttempt freshLogger "carol" false 0) "carol" false 100)
        "carol" false 200) "carol" false 300 := by
    simp [logAuthAttempt]
  have key : (logAuthAttempt
      (logAuthAttempt (logAuthAttempt (logAuthAttempt
        (logAuthAttempt freshLogger "carol" false 0) "carol" false 100)
        "carol" false 200) "carol" false 300) "carol" true 400) "carol"
      = some (4, 300) := by
    rw [hs]
    simpa using h4
  have h5 := logFail_step _ "carol" 4 300 500 key (by norm_num)
  refine ⟨key, ?_⟩
  simp [isUserLocked, h5]

/-- C10: a freshly constructed `SecurityLogger` has an empty
`failed_attempts` table (the constructor never reads the on-disk security
log), so `is_user_locked` is false for every username at every time, and the
query leaves the state unchanged. -/
theorem c10_fresh_logger_never_locked :
    ∀ (u : String) (t : ℚ),
      freshLogger u = none
      ∧ (isUserLocked freshLogger u t).1 = false
      ∧ (isUserLocked freshLogger u t).2 = freshLogger := by
  intro u t
  exact ⟨rfl, rfl, rfl⟩

/-- C5 (amended): the `get_encodings` response is null exactly when the user
is neither cached nor has an enrollment file on disk; a cached entry is
reloaded from disk only when the file's current mtime is strictly greater
than the cached mtime; when the file is missing, or its mtime is not greater
(including strictly smaller), the stale cached entry is returned unchanged. -/
theorem c5_get_encodings_null_and_staleness (c : Cache) (fs : FS) (u : String) :
    ((processGetEncodings c fs u).1 = none ↔ (c u = none ∧ fs u = none))
    ∧ (∀ e f, c u = some e → fs u = some f → f.mtime > e.last_modified →
        (processGetEncodings c fs u).1 = some (entryOfFile f))
    ∧ (∀ e, c u = some e → fs u = none →
        (processGetEncodings c fs u).1 = some e)
    ∧ (∀ e f, c u = some e → fs u = some f → ¬ f.mtime > e.last_modified →
        (processGetEncodings c fs u).1 = some e) := by
  refine ⟨?_, ?_, ?_, ?_⟩
  · rcases hc : c u with _ | e
    · rcases hf : fs u with _ | f
      · simp [processGetEncodings, checkCacheValidity, loadUserEncodings, hc, hf]
      · simp [processGetEncodings, checkCacheValidity, loadUserEncodings,
          insertUser, hc, hf]
    · rcases hf : fs u with _ | f
      · simp [processGetEncodings, checkCacheValidity, loadUserEncodings, hc, hf]
      · by_cases hm : f.mtime > e.last_modified
        · simp [processGetEncodings, checkCacheValidity, loadUserEncodings,
            insertUser, eraseUser, hc, hf, hm]
        · simp [processGetEncodings, checkCacheValidity, loadUserEncodings,
            hc, hf, hm]
  · intro e f hc hf hm
    simp [processGetEncodings, checkCacheValidity, loadUserEncodings,
      insertUser, eraseUser, hc, hf, hm]
  · intro e hc hf
    simp [processGetEncodings, checkCacheValidity, loadUserEncodings, hc, hf]
  · intro e f hc hf hm
    simp [processGetEncodings, checkCacheValidity, loadUserEncodings, hc, hf, hm]

/-- C5 witness: for a user that is neither cached nor on disk the response is
null, by the null-characterization applied at empty maps. -/
theorem c5_get_encodings_null_and_staleness_witness :
    (processGetEncodings (fun _ => none) (fun _ => none) "bob").1 = none :=
  (c5_get_encodings_null_and_staleness (fun _ => none) (fun _ => none)
    "bob").1.mpr ⟨rfl, rfl⟩

/-- C5 counterexample: with user alice cached (entry built at mtime 10) and
the enrollment file deleted, the response is the cached entry, not null - the
claim says it must be null whenever no file exists. And with the file present
at the strictly smaller mtime 5 (differing from the cached mtime), the
response is still the stale cached entry - the claim says an mtime differing
in either direction forces a reload. -/
theorem c5_counterexample :
    (processGetEncodings
        (fun v => if v = "alice" then
          some ⟨[[1]], [⟨"m", 0, [[1]]⟩], 10⟩ else none)
        (fun _ => none) "alice").1
      = some ⟨[[1]], [⟨"m", 0, [[1]]⟩], 10⟩
    ∧ (processGetEncodings
        (fun v => if v = "alice" then
          some ⟨[[1]], [⟨"m", 0, [[1]]⟩], 10⟩ else none)
        (fun v => if v = "alice" then
          some ⟨5, [⟨"m2", 1, [[2]]⟩]⟩ else none) "alice").1
      = some ⟨[[1]], [⟨"m", 0, [[1]]⟩], 10⟩
    ∧ ((5 : ℚ) ≠ 10) := by
  refine ⟨?_, ?_, by norm_num⟩
  · simp [processGetEncodings, checkCacheValidity, loadUserEncodings]
  · have hm : ¬ (5 : ℚ) > 10 := by norm_num
    simp [processGetEncodings, checkCacheValidity, loadUserEncodings, hm]

/-- Sum of a map that is constantly 1 equals the length. -/
theorem sum_map_eq_length_of_forall_one {α : Type} (g : α → Nat)
    (l : List α) (h : ∀ x ∈ l, g x = 1) : (l.map g).sum = l.length := by
  induction l with
  | nil => simp
  | cons a t ih =>
    simp only [List.map_cons, List.sum_cons, List.length_cons,
      h a (by simp)]
    rw [ih (fun x hx => h x (by simp [hx]))]
    omega

/-- C6 (amended): for a response freshly built from the on-disk file, the row
count of the encodings matrix equals the sum of `len(entry["data"])` over the
file's entries; it equals the length of the returned `models` (meta) list
only under the additional assumption that every entry carries exactly one
data row. -/
theorem c6_row_count (c : Cache) (fs : FS) (u : String) (f : UserFile)
    (e : CacheEntry) (hc : c u = none) (hf : fs u = some f)
    (he : (loadUserEncodings c fs u).2 = some e) :
    e.encodings.length = (f.models.map (fun m => m.data.length)).sum
    ∧ ((∀ m ∈ f.models, m.data.length = 1) →
        e.encodings.length = f.models.length) := by
  have hef : e = entryOfFile f := by
    simp [loadUserEncodings, hc, hf] at he
    exact he.symm
  subst hef
  constructor
  · simp [entryOfFile, List.length_flatten, List.map_map]
    rfl
  · intro h1
    simp [entryOfFile, List.length_flatten, List.map_map]
    have := sum_map_eq_length_of_forall_one (fun m => m.data.length)
      f.models h1
    simpa using this

/-- C6 witness: a one-entry file with a single data row yields one encoding
row, equal to both the data-sum and the meta length. -/
theorem c6_row_count_witness :
    ((entryOfFile ⟨7, [⟨"m", 0, [[3]]⟩]⟩).encodings.length
        = ([(⟨"m", 0, [[3]]⟩ : ModelEntry)].map (fun m => m.data.length)).sum)
    ∧ ((∀ m ∈ [(⟨"m", 0, [[3]]⟩ : ModelEntry)], m.data.length = 1) →
        (entryOfFile ⟨7, [⟨"m", 0, [[3]]⟩]⟩).encodings.length
          = [(⟨"m", 0, [[3]]⟩ : ModelEntry)].length) :=
  c6_row_count (fun _ => none)
    (fun v => if v = "dave" then some ⟨7, [⟨"m", 0, [[3]]⟩]⟩ else none)
    "dave" ⟨7, [⟨"m", 0, [[3]]⟩]⟩ (entryOfFile ⟨7, [⟨"m", 0, [[3]]⟩]⟩)
    rfl (by simp) (by simp [loadUserEncodings])

/-- C6 counterexample: a file with a single entry holding two data rows
yields an encodings matrix with 2 rows while the returned meta list has
length 1, refuting "row count equals the length of the meta list". -/
theorem c6_counterexample :
    (loadUserEncodings (fun _ => none)
        (fun v => if v = "dave" then
          some ⟨0, [⟨"m", 0, [[1], [2]]⟩]⟩ else none) "dave").2
      = some (entryOfFile ⟨0, [⟨"m", 0, [[1], [2]]⟩]⟩)
    ∧ (entryOfFile ⟨0, [⟨"m", 0, [[1], [2]]⟩]⟩).encodings.length = 2
    ∧ (entryOfFile ⟨0, [⟨"m", 0, [[1], [2]]⟩]⟩).models.length = 1
    ∧ (2 : Nat) ≠ 1 := by
  refine ⟨?_, ?_, ?_, by norm_num⟩
  · simp [loadUserEncodings]
  · simp [entryOfFile]
  · simp [entryOfFile]

/-- One `adapt_parameters` step preserves skip ∈ [1, 4] and scale ∈ (2/5, 1]. -/
theorem adaptParameters_inv (s : AdaptState) (pt : ℚ)
    (h1 : 1 ≤ s.skip) (h2 : s.skip ≤ 4)
    (h3 : 2/5 < s.scale) (h4 : s.scale ≤ 1) :
    1 ≤ (adaptParameters s pt).skip ∧ (adaptParameters s pt).skip ≤ 4
    ∧ 2/5 < (adaptParameters s pt).scale
    ∧ (adaptParameters s pt).scale ≤ 1 := by
  unfold adaptParameters
  by_cases hlen : (pushTime s.times pt).length < 5
  · simp only [hlen, if_true, if_pos]
    exact ⟨h1, h2, h3, h4⟩
  · by_cases hslow : avgLastTen (pushTime s.times pt) > 1/10
    · by_cases hk : s.skip < 4
      · simp only [hlen, hslow, hk, if_false, if_true, if_pos, if_neg,
          not_false_iff]
        exact ⟨by omega, by omega, h3, h4⟩
      · by_cases hsc : s.scale > 1/2
        · simp only [hlen, hslow, hk, hsc, if_false, if_true, if_pos, if_neg,
            not_false_iff]
          exact ⟨h1, h2, by linarith, by linarith⟩
        · simp only [hlen, hslow, hk, hsc, if_false, if_true, if_pos, if_neg,
            not_false_iff]
          exact ⟨h1, h2, h3, h4⟩
    · by_cases hfast : avgLastTen (pushTime s.times pt) < 3/100
      · by_cases hk1 : s.skip > 1
        · simp only [hlen, hslow, hfast, hk1, if_false, if_true, if_pos,
            if_neg, not_false_iff]
          exact ⟨le_max_left 1 _, max_le (by norm_num) (by omega), h3, h4⟩
        · by_cases hsc1 : s.scale < 1
          · simp only [hlen, hslow, hfast, hk1, hsc1, if_false, if_true,
              if_pos, if_neg, not_false_iff]
            exact ⟨h1, h2, lt_min (by norm_num) (by linarith),
              min_le_left _ _⟩
          · simp only [hlen, hslow, hfast, hk1, hsc1, if_false, if_true,
              if_pos, if_neg, not_false_iff]
            exact ⟨h1, h2, h3, h4⟩
      · simp only [hlen, hslow, hfast, if_false, if_neg, not_false_iff]
        exact ⟨h1, h2, h3, h4⟩

/-- C7 (amended): from skip rate 1 and scale 1.0, after any sequence of
`adapt_parameters` calls, `current_skip_rate` stays in [1, 4]; the resolution
scale stays in (2/5, 1] - but it does NOT stay within [0.5, 1.0]: the 0.8
step is guarded only by `scale > 0.5` before multiplying, so the scale can
drop below 0.5 (to just above 0.4). -/
theorem c7_adapt_bounds : ∀ pts : List ℚ,
    1 ≤ (runAdapt initAdapt pts).skip ∧ (runAdapt initAdapt pts).skip ≤ 4
    ∧ 2/5 < (runAdapt initAdapt pts).scale
    ∧ (runAdapt initAdapt pts).scale ≤ 1 := by
  have main : ∀ (pts : List ℚ) (s : AdaptState),
      1 ≤ s.skip → s.skip ≤ 4 → 2/5 < s.scale → s.scale ≤ 1 →
      1 ≤ (runAdapt s pts).skip ∧ (runAdapt s pts).skip ≤ 4
      ∧ 2/5 < (runAdapt s pts).scale ∧ (runAdapt s pts).scale ≤ 1 := by
    intro pts
    induction pts with
    | nil => intro s h1 h2 h3 h4; exact ⟨h1, h2, h3, h4⟩
    | cons p rest ih =>
      intro s h1 h2 h3 h4
      have hstep := adaptParameters_inv s p h1 h2 h3 h4
      simpa [runAdapt] using ih (adaptParameters s p)
        hstep.1 hstep.2.1 hstep.2.2.1 hstep.2.2.2
  intro pts
  exact main pts initAdapt (by norm_num [initAdapt]) (by norm_num [initAdapt])
    (by norm_num [initAdapt]) (by norm_num [initAdapt])

/-- C7 counterexample: eleven consecutive slow samples (1 s each) drive the
state through skip rates 2, 3, 4 and then scale 0.8, 0.64, 0.512, 0.4096: the
final `current_resolution_scale` is 256/625 < 1/2, outside the claimed
interval [0.5, 1.0]. -/
theorem c7_counterexample :
    (runAdapt initAdapt [1, 1, 1, 1, 1, 1, 1, 1, 1, 1, 1]).scale = 256/625
    ∧ ¬ ((1 : ℚ)/2 ≤ 256/625) := by
  constructor
  · norm_num [runAdapt, initAdapt, adaptParameters, pushTime, avgLastTen]
  · norm_num

/-- C8 (amended): the quality gate passes a frame iff the weighted score
exceeds 0.7, which holds iff the sharpness indicator is set AND at least two
of the other three indicators (brightness, contrast, lighting uniformity)
are set - NOT iff all four hold: any single non-sharpness indicator may fail
(weights 0.25, 0.25, 0.2 leave sums 0.75, 0.75, 0.8, all above 0.7) while
losing sharpness alone leaves exactly 0.7, which does not pass. -/
theorem c8_quality_gate (blur brightness contrast lv : ℚ) :
    framePasses blur brightness contrast lv
      = (isSharp blur && atLeastTwo (isBrightEnough brightness)
          (hasGoodContrast contrast) (hasEvenLighting lv)) := by
  unfold framePasses isGoodQuality qualityScore atLeastTwo
  cases h1 : isSharp blur <;> cases h2 : isBrightEnough brightness <;>
    cases h3 : hasGoodContrast contrast <;> cases h4 : hasEvenLighting lv <;>
    norm_num

/-- C8 counterexample: a frame with Laplacian variance 150 (> 100), mean
luma 120 (in [50, 200]), contrast 40 (> 30) but quadrant variance 600
(NOT < 500) fails the lighting-uniformity condition yet passes the gate:
its score is 0.8 > 0.7. The claim's "passes iff all four conditions hold"
and "score exceeds 0.7 exactly when all four indicator terms are 1" are both
false here. -/
theorem c8_counterexample :
    framePasses 150 120 40 600 = true
    ∧ hasEvenLighting 600 = false
    ∧ isSharp 150 = true
    ∧ isBrightEnough 120 = true
    ∧ hasGoodContrast 40 = true := by
  refine ⟨?_, ?_, ?_, ?_, ?_⟩ <;>
    norm_num [framePasses, isGoodQuality, qualityScore, isSharp,
      isBrightEnough, hasGoodContrast, hasEvenLighting]

theorem logistic_pos (t : ℝ) : 0 < logistic t := by
  unfold logistic
  positivity

theorem logistic_lt_one (t : ℝ) : logistic t < 1 := by
  unfold logistic
  rw [div_lt_one (by positivity)]
  linarith [Real.exp_pos (-t)]

theorem spectrumScore_nonneg (meanE maxE : ℝ) : 0 ≤ spectrumScore meanE maxE := by
  unfold spectrumScore
  split_ifs
  · exact le_refl 0
  · exact le_min zero_le_one (le_max_left 0 _)

theorem spectrumScore_le_one (meanE maxE : ℝ) : spectrumScore meanE maxE ≤ 1 := by
  unfold spectrumScore
  split_ifs
  · exact zero_le_one
  · exact min_le_left _ _

theorem spectrumScore_of_mean_ne (meanE maxE : ℝ) (h : meanE ≠ 0) :
    spectrumScore meanE maxE
      = logistic ((maxE / (meanE + 1/100000) - 7/2) * 2) := by
  unfold spectrumScore
  rw [if_neg h, max_eq_right (logistic_pos _).le,
    min_eq_right (logistic_lt_one _).le]

/-- C9: the frequency analyzer's score is always in [0, 1]; it is exactly
0.0 on any internal error and whenever the clipped face crop is degenerate
(non-positive clipped width or height); and in the normal case with nonzero
mean energy it is exactly the logistic, centered at 3.5 with slope 2.0, of
the peak-to-mean high-frequency energy ratio (the clamp never binds since the
logistic lies strictly inside (0, 1)). -/
theorem c9_frequency_analyzer_score (err : Bool)
    (faceLoc : Option (Int × Int × Int × Int)) (wImg hImg : Int)
    (meanE maxE : ℝ) :
    (0 ≤ analyze err faceLoc wImg hImg meanE maxE
      ∧ analyze err faceLoc wImg hImg meanE maxE ≤ 1)
    ∧ (err = true → analyze err faceLoc wImg hImg meanE maxE = 0)
    ∧ (∀ x y w h, faceLoc = some (x, y, w, h) →
        (min w (wImg - max 0 x) ≤ 0 ∨ min h (hImg - max 0 y) ≤ 0) →
        analyze err faceLoc wImg hImg meanE maxE = 0)
    ∧ (err = false → meanE ≠ 0 → faceLoc = none →
        analyze err faceLoc wImg hImg meanE maxE
          = logistic ((maxE / (meanE + 1/100000) - 7/2) * 2))
    ∧ (∀ x y w h, err = false → meanE ≠ 0 → faceLoc = some (x, y, w, h) →
        ¬ (min w (wImg - max 0 x) ≤ 0 ∨ min h (hImg - max 0 y) ≤ 0) →
        analyze err faceLoc wImg hImg meanE maxE
          = logistic ((maxE / (meanE + 1/100000) - 7/2) * 2)) := by
  refine ⟨?_, ?_, ?_, ?_, ?_⟩
  · unfold analyze
    split_ifs
    · exact ⟨le_refl 0, zero_le_one⟩
    · rcases faceLoc with _ | ⟨x, y, w, h⟩
      · exact ⟨spectrumScore_nonneg _ _, spectrumScore_le_one _ _⟩
      · dsimp only
        split_ifs
        · exact ⟨le_refl 0, zero_le_one⟩
        · exact ⟨spectrumScore_nonneg _ _, spectrumScore_le_one _ _⟩
  · intro he
    simp [analyze, he]
  · intro x y w h hfl hdeg
    subst hfl
    unfold analyze
    by_cases he : err
    · rw [if_pos he]
    · rw [if_neg he]
      dsimp only
      rw [if_pos hdeg]
  · intro he hm hfl
    subst hfl
    unfold analyze
    rw [he, if_neg Bool.false_ne_true]
    exact spectrumScore_of_mean_ne _ _ hm
  · intro x y w h he hm hfl hdeg
    subst hfl
    unfold analyze
    rw [he, if_neg Bool.false_ne_true]
    dsimp only
    rw [if_neg hdeg]
    exact spectrumScore_of_mean_ne _ _ hm

/-- C9 witness: a whole-frame analysis (no face location) with mean energy 1
and max energy 4 scores exactly the logistic of `(4/(1 + 1e-5) - 3.5) * 2`. -/
theorem c9_frequency_analyzer_score_witness :
    analyze false none 0 0 1 4
      = logistic (((4 : ℝ) / (1 + 1/100000) - 7/2) * 2) :=
  (c9_frequency_analyzer_score false none 0 0 1 4).2.2.2.1 rfl
    (by norm_num) rfl

theorem processResult_accepted_isLive (thr : ℚ) (i : StepInput)
    (hl : i.landmarks = true)
    (h : (processResult true thr i false).accepted = true) :
    i.isLive = true := by
  unfold processResult at h
  split_ifs at h <;> simp_all

theorem processResult_not_accepted_confirmed (thr : ℚ) (i : StepInput)
    (h : (processResult true thr i false).accepted = false) :
    (processResult true thr i false).confirmed = false := by
  unfold processResult at h ⊢
  split_ifs at h ⊢ <;> simp_all

/-- C1 (amended): when the liveness check is enabled in the configuration
AND the landmarks request succeeds for every processed result, the Verifier
exits 0 only if `is_live_face` returned a live verdict for some result
during the session. (The unamended claim, quantified over all
configurations, is refuted by `c1_counterexample`.) -/
theorem c1_liveness_required_when_enabled (thr : ℚ)
    (frames : List FrameKind)
    (hland : ∀ i : StepInput, FrameKind.lit (some i) ∈ frames →
      i.landmarks = true)
    (hzero : loopRun true thr frames false 0 0 = 0) :
    ∃ i : StepInput, FrameKind.lit (some i) ∈ frames ∧ i.isLive = true := by
  have aux : ∀ (fr : List FrameKind) (v d : Nat),
      (∀ i : StepInput, FrameKind.lit (some i) ∈ fr → i.landmarks = true) →
      loopRun true thr fr false v d = 0 →
      ∃ i : StepInput, FrameKind.lit (some i) ∈ fr ∧ i.isLive = true := by
    intro fr
    induction fr with
    | nil =>
      intro v d _ h
      unfold loopRun at h
      split_ifs at h <;> omega
    | cons fk rest ih =>
      intro v d hl h
      cases fk with
      | black =>
        obtain ⟨i, hi, hlive⟩ := ih v d
          (fun i hi => hl i (by simp [hi])) (by simpa [loopRun] using h)
        exact ⟨i, by simp [hi], hlive⟩
      | dark =>
        obtain ⟨i, hi, hlive⟩ := ih (v + 1) (d + 1)
          (fun i hi => hl i (by simp [hi])) (by simpa [loopRun] using h)
        exact ⟨i, by simp [hi], hlive⟩
      | lit o =>
        cases o with
        | none =>
          obtain ⟨i, hi, hlive⟩ := ih (v + 1) d
            (fun i hi => hl i (by simp [hi])) (by simpa [loopRun] using h)
          exact ⟨i, by simp [hi], hlive⟩
        | some i =>
          have hli : i.landmarks = true := hl i (by simp)
          by_cases hacc : (processResult true thr i false).accepted = true
          · exact ⟨i, by simp, processResult_accepted_isLive thr i hli hacc⟩
          · have hacc' : (processResult true thr i false).accepted = false := by
              simpa using hacc
            have hconf := processResult_not_accepted_confirmed thr i hacc'
            unfold loopRun at h
            rw [if_neg hacc, hconf] at h
            obtain ⟨j, hj, hlive⟩ := ih (v + 1) d
              (fun j hj => hl j (by simp [hj])) h
            exact ⟨j, by simp [hj], hlive⟩
  exact aux frames 0 0 hland hzero

/-- C1 witness: a session with a single matching result with landmarks
available and a live verdict exits 0, and the required live verdict exists. -/
theorem c1_liveness_required_when_enabled_witness :
    ∃ i : StepInput,
      FrameKind.lit (some i)
        ∈ [FrameKind.lit (some ⟨1/10, true, true⟩)] ∧ i.isLive = true :=
  c1_liveness_required_when_enabled (7/20)
    [FrameKind.lit (some ⟨1/10, true, true⟩)]
    (by intro i hi; simp at hi; simp [hi])
    (by norm_num [loopRun, processResult])

/-- C1 counterexample: the Verifier exits 0 from a sub-threshold descriptor
match alone, with the liveness detector never returning a live verdict: (a)
with `liveness_check` disabled in the configuration, and (b) even with it
enabled, when the `get_face_landmarks` request returns a falsy value on the
accepting iteration (lines 593-600 are skipped and control falls through to
the success exit). This refutes "a descriptor match below the certainty
threshold is never by itself sufficient, for any configuration". -/
theorem c1_counterexample :
    loopRun false (7/20)
      [FrameKind.lit (some ⟨1/10, false, false⟩)] false 0 0 = 0
    ∧ loopRun true (7/20)
      [FrameKind.lit (some ⟨1/10, false, false⟩)] false 0 0 = 0
    ∧ (⟨1/10, false, false⟩ : StepInput).isLive = false := by
  refine ⟨?_, ?_, rfl⟩ <;> norm_num [loopRun, processResult]

/-- The main loop exits 0 exactly on an accepted result; otherwise it exits
13 when the final `dark_tries` equals the final `valid_frames`, else 11. -/
theorem loopRun_characterization (lc : Bool) (thr : ℚ) :
    ∀ (frames : List FrameKind) (c : Bool) (v d : Nat),
      (acceptsRun lc thr frames c = true → loopRun lc thr frames c v d = 0)
      ∧ (acceptsRun lc thr frames c = false →
          loopRun lc thr frames c v d =
            if (countValidDark frames (v, d)).2 = (countValidDark frames (v, d)).1
            then 13 else 11) := by
  intro frames
  induction frames with
  | nil =>
    intro c v d
    constructor
    · intro h
      simp [acceptsRun] at h
    · intro _
      simp [loopRun, countValidDark]
  | cons fk rest ih =>
    intro c v d
    cases fk with
    | black =>
      constructor
      · intro h
        simpa [loopRun] using (ih c v d).1 (by simpa [acceptsRun] using h)
      · intro h
        simpa [loopRun, countValidDark] using
          (ih c v d).2 (by simpa [acceptsRun] using h)
    | dark =>
      constructor
      · intro h
        simpa [loopRun] using
          (ih c (v + 1) (d + 1)).1 (by simpa [acceptsRun] using h)
      · intro h
        simpa [loopRun, countValidDark] using
          (ih c (v + 1) (d + 1)).2 (by simpa [acceptsRun] using h)
    | lit o =>
      cases o with
      | none =>
        constructor
        · intro h
          simpa [loopRun] using
            (ih c (v + 1) d).1 (by simpa [acceptsRun] using h)
        · intro h
          simpa [loopRun, countValidDark] using
            (ih c (v + 1) d).2 (by simpa [acceptsRun] using h)
      | some i =>
        by_cases hacc : (processResult lc thr i c).accepted = true
        · constructor
          · intro _
            simp [loopRun, hacc]
          · intro h
            simp [acceptsRun, hacc] at h
        · have hacc' : (processResult lc thr i c).accepted = false := by
            simpa using hacc
          constructor
          · intro h
            have := (ih (processResult lc thr i c).confirmed (v + 1) d).1
              (by simpa [acceptsRun, hacc'] using h)
            simpa [loopRun, hacc] using this
          · intro h
            have := (ih (processResult lc thr i c).confirmed (v + 1) d).2
              (by simpa [acceptsRun, hacc'] using h)
            simpa [loopRun, hacc, countValidDark] using this

/-- C4 (amended): the Verifier's exit codes are 12 without a username, 1
with the daemon unreachable, 15 when locked, 10 without an enrollment, 14 on
camera failure, 0 on an accepted match, and on deadline 13 when every valid
frame was dark (`dark_tries == valid_frames`) else 11 - and NO execution
path exits 16: the code has no spoof exit code (see `c4_counterexample`). -/
theorem c4_exit_codes (hU hD hL hE hC lc : Bool) (thr : ℚ)
    (frames : List FrameKind) :
    (hU = false → mainExit hU hD hL hE hC lc thr frames = 12)
    ∧ (hU = true → hD = false → mainExit hU hD hL hE hC lc thr frames = 1)
    ∧ (hU = true → hD = true → hL = true →
        mainExit hU hD hL hE hC lc thr frames = 15)
    ∧ (hU = true → hD = true → hL = false → hE = false →
        mainExit hU hD hL hE hC lc thr frames = 10)
    ∧ (hU = true → hD = true → hL = false → hE = true → hC = false →
        mainExit hU hD hL hE hC lc thr frames = 14)
    ∧ (hU = true → hD = true → hL = false → hE = true → hC = true →
        acceptsRun lc thr frames false = true →
        mainExit hU hD hL hE hC lc thr frames = 0)
    ∧ (hU = true → hD = true → hL = false → hE = true → hC = true →
        acceptsRun lc thr frames false = false →
        mainExit hU hD hL hE hC lc thr frames =
          if (countValidDark frames (0, 0)).2 = (countValidDark frames (0, 0)).1
          then 13 else 11)
    ∧ mainExit hU hD hL hE hC lc thr frames ≠ 16 := by
  refine ⟨?_, ?_, ?_, ?_, ?_, ?_, ?_, ?_⟩
  · intro h1
    simp [mainExit, h1]
  · intro h1 h2
    simp [mainExit, h1, h2]
  · intro h1 h2 h3
    simp [mainExit, h1, h2, h3]
  · intro h1 h2 h3 h4
    simp [mainExit, h1, h2, h3, h4]
  · intro h1 h2 h3 h4 h5
    simp [mainExit, h1, h2, h3, h4, h5]
  · intro h1 h2 h3 h4 h5 h6
    simp only [mainExit, h1, h2, h3, h4, h5]
    norm_num
    exact (loopRun_characterization lc thr frames false 0 0).1 h6
  · intro h1 h2 h3 h4 h5 h6
    simp only [mainExit, h1, h2, h3, h4, h5]
    norm_num
    exact (loopRun_characterization lc thr frames false 0 0).2 h6
  · cases hU <;> cases hD <;> cases hL <;> cases hE <;> cases hC <;>
      simp [mainExit]
    by_cases hacc : acceptsRun lc thr frames false = true
    · rw [(loopRun_characterization lc thr frames false 0 0).1 hacc]
      norm_num
    · rw [(loopRun_characterization lc thr frames false 0 0).2
        (by simpa using hacc)]
      split_ifs <;> norm_num

/-- C4 witness: with no username the exit code is 12. -/
theorem c4_exit_codes_witness :
    mainExit false true false true true true (7/20) [] = 12 :=
  (c4_exit_codes false true false true true true (7/20) []).1 rfl

/-- C4 counterexample: a spoof-detection scenario - liveness enabled, a
matching result with landmarks available, but `is_live_face` returns false
(a spoof) on every frame - does NOT exit 16 as the claim requires: the loop
merely continues and the attempt ends with the timeout exit code 11. No
exit-16 path exists anywhere in `compare_optimized.py`. -/
theorem c4_counterexample :
    mainExit true true false true true true (7/20)
      [FrameKind.lit (some ⟨1/10, true, false⟩)] = 11
    ∧ (11 : Nat) ≠ 16
    ∧ (⟨1/10, true, false⟩ : StepInput).isLive = false := by
  refine ⟨?_, by norm_num, rfl⟩
  norm_num [mainExit, loopRun, processResult]

theorem foldl_min_self_le (xs : List ℚ) (x : ℚ) : xs.foldl min x ≤ x := by
  induction xs generalizing x with
  | nil => simp
  | cons a t ih =>
    exact le_trans (ih (min x a)) (min_le_left x a)

theorem foldl_min_le_mem (xs : List ℚ) (x y : ℚ) (hy : y ∈ xs) :
    xs.foldl min x ≤ y := by
  induction xs generalizing x with
  | nil => cases hy
  | cons a t ih =>
    rcases List.mem_cons.mp hy with rfl | hmem
    · exact le_trans (foldl_min_self_le t (min x y)) (min_le_right x y)
    · exact ih (min x a) hmem

theorem foldl_min_mem (xs : List ℚ) (x : ℚ) :
    xs.foldl min x = x ∨ xs.foldl min x ∈ xs := by
  induction xs generalizing x with
  | nil => exact Or.inl rfl
  | cons a t ih =>
    rcases ih (min x a) with h | h
    · rcases min_choice x a with hxa | hxa
      · exact Or.inl (by rw [List.foldl_cons, h, hxa])
      · exact Or.inr (by rw [List.foldl_cons, h, hxa]; simp)
    · exact Or.inr (by simp [List.foldl_cons, h])

theorem sqDist_nonneg (a b : List ℚ) : 0 ≤ sqDist a b := by
  induction a generalizing b with
  | nil => simp [sqDist]
  | cons x t ih =>
    cases b with
    | nil => simp [sqDist]
    | cons y u =>
      have := ih u
      simp only [sqDist, List.zipWith_cons_cons, List.sum_cons]
      have hsq : (0 : ℚ) ≤ (x - y) ^ 2 := sq_nonneg _
      simp only [sqDist] at this
      linarith

theorem nearestSqDist_attained (enc : List (List ℚ)) (probe : List ℚ)
    (h : enc ≠ []) :
    ∃ e ∈ enc, nearestSqDist enc probe = sqDist e probe := by
  cases enc with
  | nil => exact absurd rfl h
  | cons e t =>
    have harm : nearestSqDist (e :: t) probe
        = (t.map (fun r => sqDist r probe)).foldl min (sqDist e probe) := by
      simp [nearestSqDist, rowSqDists]
    rcases foldl_min_mem (t.map (fun r => sqDist r probe))
        (sqDist e probe) with hm | hm
    · exact ⟨e, by simp, by rw [harm, hm]⟩
    · obtain ⟨r, hr, hrv⟩ := List.mem_map.mp hm
      exact ⟨r, by simp [hr], by rw [harm, hrv]⟩

theorem nearestSqDist_le (enc : List (List ℚ)) (probe : List ℚ) :
    ∀ e ∈ enc, nearestSqDist enc probe ≤ sqDist e probe := by
  intro e he
  cases enc with
  | nil => cases he
  | cons e0 t =>
    have harm : nearestSqDist (e0 :: t) probe
        = (t.map (fun r => sqDist r probe)).foldl min (sqDist e0 probe) := by
      simp [nearestSqDist, rowSqDists]
    rcases List.mem_cons.mp he with rfl | hmem
    · rw [harm]
      exact foldl_min_self_le _ _
    · rw [harm]
      exact foldl_min_le_mem _ _ _ (List.mem_map.mpr ⟨e, hmem, rfl⟩)

theorem nearestSqDist_nonneg (enc : List (List ℚ)) (probe : List ℚ) :
    0 ≤ nearestSqDist enc probe := by
  cases enc with
  | nil => simp [nearestSqDist, rowSqDists]
  | cons e t =>
    obtain ⟨r, _, hr⟩ := nearestSqDist_attained (e :: t) probe (by simp)
    rw [hr]
    exact sqDist_nonneg r probe

/-- C3 (amended): the match certainty is the square root of the minimal
squared Euclidean distance over the enrolled descriptors (attained at some
enrolled descriptor and a lower bound for all of them), it is always ≥ 0,
and the accepting test of line 583 - `0 < d < certainty_threshold` - holds
iff the squared nearest distance is strictly positive and below the squared
threshold. In particular, distance exactly 0 is NOT accepting (see
`c3_counterexample`). -/
theorem c3_match_decision (enc : List (List ℚ)) (probe : List ℚ) (thr : ℝ)
    (henc : enc ≠ []) (hthr : 0 < thr) :
    0 ≤ Real.sqrt ((nearestSqDist enc probe : ℚ) : ℝ)
    ∧ (∃ e ∈ enc, nearestSqDist enc probe = sqDist e probe)
    ∧ (∀ e ∈ enc, nearestSqDist enc probe ≤ sqDist e probe)
    ∧ (mainAcceptProp (Real.sqrt ((nearestSqDist enc probe : ℚ) : ℝ)) thr
        ↔ (0 < nearestSqDist enc probe
            ∧ ((nearestSqDist enc probe : ℚ) : ℝ) < thr ^ 2)) := by
  refine ⟨Real.sqrt_nonneg _, nearestSqDist_attained enc probe henc,
    nearestSqDist_le enc probe, ?_⟩
  unfold mainAcceptProp
  rw [Real.sqrt_pos, Real.sqrt_lt' hthr]
  constructor
  · rintro ⟨h1, h2⟩
    exact ⟨by exact_mod_cast h1, h2⟩
  · rintro ⟨h1, h2⟩
    exact ⟨by exact_mod_cast h1, h2⟩

/-- C3 witness: enrollment `[[1]]`, probe `[0]`, threshold 1: the nearest
squared distance is attained, bounds all rows, and the accepting test holds
iff the squared distance is in (0, 1). -/
theorem c3_match_decision_witness :
    0 ≤ Real.sqrt ((nearestSqDist [[(1 : ℚ)]] [0] : ℚ) : ℝ)
    ∧ (∃ e ∈ [[(1 : ℚ)]], nearestSqDist [[(1 : ℚ)]] [0] = sqDist e [0])
    ∧ (∀ e ∈ [[(1 : ℚ)]], nearestSqDist [[(1 : ℚ)]] [0] ≤ sqDist e [0])
    ∧ (mainAcceptProp (Real.sqrt ((nearestSqDist [[(1 : ℚ)]] [0] : ℚ) : ℝ)) 1
        ↔ (0 < nearestSqDist [[(1 : ℚ)]] [0]
            ∧ ((nearestSqDist [[(1 : ℚ)]] [0] : ℚ) : ℝ) < 1 ^ 2)) :=
  c3_match_decision [[(1 : ℚ)]] [0] 1 (by simp) (by norm_num)

/-- C3 counterexample: a probe identical to an enrolled descriptor has
nearest distance exactly 0, which is below the default threshold 0.35, yet
line 583 (`0 < match_certainty < video_certainty`) rejects it: distance 0 is
not accepting, refuting "a probe at distance exactly 0 from an enrolled
descriptor is accepting". -/
theorem c3_counterexample :
    nearestSqDist [[(0 : ℚ)]] [0] = 0
    ∧ Real.sqrt ((nearestSqDist [[(0 : ℚ)]] [0] : ℚ) : ℝ) = 0
    ∧ Real.sqrt ((nearestSqDist [[(0 : ℚ)]] [0] : ℚ) : ℝ) < 7/20
    ∧ ¬ mainAcceptProp (Real.sqrt ((nearestSqDist [[(0 : ℚ)]] [0] : ℚ) : ℝ))
        (7/20) := by
  have h0 : nearestSqDist [[(0 : ℚ)]] [0] = 0 := by
    norm_num [nearestSqDist, rowSqDists, sqDist]
  have hs : Real.sqrt ((nearestSqDist [[(0 : ℚ)]] [0] : ℚ) : ℝ) = 0 := by
    rw [h0]
    norm_num [Real.sqrt_zero]
  refine ⟨h0, hs, ?_, ?_⟩
  · rw [hs]
    norm_num
  · rw [hs]
    simp [mainAcceptProp]

end Howdy
